import Mathlib

/-!
Shallow embedding of the Medibox controller (src/src/main.cpp, the canonical
first draft, lines 1-987).  Globals become one state record; each C++ function
that mutates globals becomes a Lean function on that record.  `millis()` values
are naturals, and `unsigned long` subtraction is modelled exactly as 32-bit
wraparound subtraction (`usub`).  Display, LED, buzzer and serial writes carry
no state in the source and are dropped; `check_temp` additionally returns the
report it would render.  `float` quantities (timezone offset, sensor samples)
are embedded as rationals: every value the program ever stores in them is a
multiple of 0.5 well inside the range where IEEE doubles are exact, and a
not-a-number sensor reading is `Option.none`.
-/

/-- Four raw button lines plus the no-press value, as in `enum Button`. -/
inductive Button
  | NONE
  | UP
  | OK_BTN
  | DOWN
  | CANCEL_BTN
deriving DecidableEq, Repr

/-- Menu screens, as in `enum MenuState`. -/
inductive MenuState
  | MAIN_MENU
  | SET_TIMEZONE
  | SET_ALARM_1
  | SET_ALARM_2
  | VIEW_ALARMS
  | DELETE_ALARM
  | DELETE_ALARM_1
  | DELETE_ALARM_2
  | NORMAL_DISPLAY
deriving DecidableEq, Repr

/-- Sub-state of the alarm-setting flow, as in `enum AlarmSettingState`. -/
inductive AlarmSettingState
  | SETTING_HOUR
  | SETTING_MINUTE
  | CONFIRM_ALARM
deriving DecidableEq, Repr

/-- The free-standing globals of main.cpp gathered into one record. -/
structure MediState where
  currentState : MenuState
  alarmSettingState : AlarmSettingState
  menuPosition : Nat
  timeZoneOffset : ℚ
  alarm1Active : Bool
  alarm2Active : Bool
  alarm1Hour : Nat
  alarm1Minute : Nat
  alarm2Hour : Nat
  alarm2Minute : Nat
  settingHour : Nat
  settingMinute : Nat
  alarmRinging : Bool
  alarmRingingNum : Nat
  alarmStartTime : Nat
  alarmSnoozing : Bool
  snoozeStartTime : Nat
  lastButtonPressTime : Nat
  menuInitialized : Bool
deriving DecidableEq, Repr

/-- Initial values of the globals at boot. -/
def initState : MediState :=
  { currentState := MenuState.NORMAL_DISPLAY
    alarmSettingState := AlarmSettingState.SETTING_HOUR
    menuPosition := 0
    timeZoneOffset := 0
    alarm1Active := false
    alarm2Active := false
    alarm1Hour := 0
    alarm1Minute := 0
    alarm2Hour := 0
    alarm2Minute := 0
    settingHour := 0
    settingMinute := 0
    alarmRinging := false
    alarmRingingNum := 0
    alarmStartTime := 0
    alarmSnoozing := false
    snoozeStartTime := 0
    lastButtonPressTime := 0
    menuInitialized := false }

/-- Broken-down time as delivered by `getLocalTime` (already timezone adjusted). -/
structure Tm where
  tm_hour : Nat
  tm_min : Nat
  tm_sec : Nat
deriving DecidableEq, Repr

/-- One sampled level per button line; `true` means the line reads LOW (pressed). -/
structure RawButtons where
  up : Bool
  ok : Bool
  down : Bool
  cancel : Bool
deriving DecidableEq, Repr

/-- One poll of the button lines at a given `millis()` instant. -/
structure Sample where
  now : Nat
  raw : RawButtons
deriving DecidableEq, Repr

def rawNone : RawButtons := ⟨false, false, false, false⟩

def rawUp : RawButtons := ⟨true, false, false, false⟩

def rawOk : RawButtons := ⟨false, true, false, false⟩

def rawDown : RawButtons := ⟨false, false, true, false⟩

def rawCancel : RawButtons := ⟨false, false, false, true⟩

/-- Modulus of `unsigned long` arithmetic on the target (32-bit). -/
def u32 : Nat := 4294967296

/-- The C expression `a - b` at type `unsigned long`. -/
def usub (a b : Nat) : Nat := (a + (u32 - b % u32)) % u32

def DEBOUNCE_TIME : Nat := 250

def SNOOZE_DURATION : Nat := 5 * 60 * 1000

def MIN_HEALTHY_TEMP : ℚ := 24

def MAX_HEALTHY_TEMP : ℚ := 32

def MIN_HEALTHY_HUMIDITY : ℚ := 65

def MAX_HEALTHY_HUMIDITY : ℚ := 80

/-- Priority order UP, OK, DOWN, CANCEL of the `digitalRead` chain in
`check_button_press`. -/
def readButton (r : RawButtons) : Button :=
  if r.up then Button.UP
  else if r.ok then Button.OK_BTN
  else if r.down then Button.DOWN
  else if r.cancel then Button.CANCEL_BTN
  else Button.NONE

/-- The function `check_button_press`: reject everything inside the debounce
window, otherwise report the pressed line (if any) and remember the accepted
press time. -/
def check_button_press (now : Nat) (r : RawButtons) (s : MediState) :
    Button × MediState :=
  if usub now s.lastButtonPressTime < DEBOUNCE_TIME then (Button.NONE, s)
  else
    if readButton r = Button.NONE then (Button.NONE, s)
    else (readButton r, { s with lastButtonPressTime := now })

/-- The function `ring_alarm` (globals part; the buzzer burst is output only). -/
def ring_alarm (alarmNum : Nat) (now : Nat) (s : MediState) : MediState :=
  { s with alarmRinging := true, alarmRingingNum := alarmNum,
           alarmStartTime := now }

/-- The function `update_time_with_check_alarm`.  `time = none` models
`getLocalTime` failing, in which case only the fallback message is printed. -/
def update_time_with_check_alarm (time : Option Tm) (now : Nat)
    (s : MediState) : MediState :=
  match time with
  | none => s
  | some t =>
    if s.alarmRinging = false ∧ s.alarmSnoozing = false then
      if s.alarm1Active = true ∧ t.tm_hour = s.alarm1Hour ∧
          t.tm_min = s.alarm1Minute ∧ t.tm_sec = 0 then
        ring_alarm 1 now s
      else if s.alarm2Active = true ∧ t.tm_hour = s.alarm2Hour ∧
          t.tm_min = s.alarm2Minute ∧ t.tm_sec = 0 then
        ring_alarm 2 now s
      else s
    else s

/-- The function `stop_alarm(bool snooze)`. -/
def stop_alarm (snooze : Bool) (now : Nat) (s : MediState) : MediState :=
  if snooze then
    { s with alarmSnoozing := true, alarmRinging := false,
             snoozeStartTime := now }
  else
    { s with alarmRinging := false, alarmSnoozing := false }

/-- The function `check_snooze`. -/
def check_snooze (now : Nat) (s : MediState) : MediState :=
  if s.alarmSnoozing = true ∧ SNOOZE_DURATION ≤ usub now s.snoozeStartTime then
    ring_alarm s.alarmRingingNum now { s with alarmSnoozing := false }
  else s

/-- The function `go_to_menu` (globals part). -/
def go_to_menu (s : MediState) : MediState :=
  { s with currentState := MenuState.MAIN_MENU, menuPosition := 0,
           menuInitialized := false }

/-- The cursor-correcting side effect of `display_delete_alarm_menu`
(main.cpp lines 712-755): the rendering itself is output only, but the
function also repairs `menuPosition` when it rests on an invalid entry. -/
def display_delete_alarm_menu (s : MediState) : MediState :=
  if s.alarm1Active = false ∧ s.alarm2Active = false then
    { s with menuPosition := 2 }
  else
    let p1 := if s.menuPosition = 0 ∧ s.alarm1Active = false then 1
              else s.menuPosition
    let p2 := if p1 = 1 ∧ s.alarm2Active = false then 2 else p1
    { s with menuPosition := p2 }

/-- The `do { menuPosition = (menuPosition + step) % 3; } while (invalid)`
loop of the DELETE_ALARM branch, unrolled three times: with `step` 1 or 2
the three iterates from any start cover all residues mod 3, and position 2
(Back) is always valid, so the source loop exits within three iterations at
exactly the value computed here. -/
def deleteWrap (a1 a2 : Bool) (step : Nat) (p : Nat) : Nat :=
  if ((p + step) % 3 = 0 ∧ a1 = false) ∨ ((p + step) % 3 = 1 ∧ a2 = false) then
    if ((p + 2 * step) % 3 = 0 ∧ a1 = false) ∨
        ((p + 2 * step) % 3 = 1 ∧ a2 = false) then
      (p + 3 * step) % 3
    else (p + 2 * step) % 3
  else (p + step) % 3

/-- The function `handle_alarm_setting`. -/
def handle_alarm_setting (alarmNum : Nat) (b : Button) (s : MediState) :
    MediState :=
  if s.alarmSettingState = AlarmSettingState.SETTING_HOUR then
    if b = Button.UP then { s with settingHour := (s.settingHour + 1) % 24 }
    else if b = Button.DOWN then
      { s with settingHour := (s.settingHour + 23) % 24 }
    else if b = Button.OK_BTN then
      { s with alarmSettingState := AlarmSettingState.SETTING_MINUTE }
    else if b = Button.CANCEL_BTN then
      go_to_menu { s with currentState := MenuState.MAIN_MENU,
                          menuInitialized := false }
    else s
  else if s.alarmSettingState = AlarmSettingState.SETTING_MINUTE then
    if b = Button.UP then
      { s with settingMinute := (s.settingMinute + 1) % 60 }
    else if b = Button.DOWN then
      { s with settingMinute := (s.settingMinute + 59) % 60 }
    else if b = Button.OK_BTN then
      go_to_menu
        { (if alarmNum = 1 then
             { s with alarm1Hour := s.settingHour,
                      alarm1Minute := s.settingMinute, alarm1Active := true }
           else
             { s with alarm2Hour := s.settingHour,
                      alarm2Minute := s.settingMinute, alarm2Active := true })
          with alarmSettingState := AlarmSettingState.SETTING_HOUR,
               currentState := MenuState.MAIN_MENU, menuInitialized := false }
    else if b = Button.CANCEL_BTN then
      go_to_menu { s with currentState := MenuState.MAIN_MENU,
                          menuInitialized := false }
    else s
  else s

/-- The inner wait-for-any-button loop of `delete_alarm_1` / `delete_alarm_2`
after the deletion was confirmed.  It consumes button polls one per iteration;
an exhausted poll list means the loop is still spinning, with the state as it
stands at that point. -/
def delete_wait_any : List Sample → MediState → MediState
  | [], s => s
  | smp :: rest, s =>
    if (check_button_press smp.now smp.raw s).1 = Button.NONE then
      delete_wait_any rest (check_button_press smp.now smp.raw s).2
    else
      go_to_menu
        { (check_button_press smp.now smp.raw s).2 with
          currentState := MenuState.MAIN_MENU, menuInitialized := false }

/-- The function `delete_alarm_1`: a blocking `while (true)` waiting for
OK (delete, then wait for any button) or CANCEL (back to the delete menu),
polling the buttons once per iteration.  An exhausted poll list means the
loop is still spinning. -/
def delete_alarm_1 : List Sample → MediState → MediState
  | [], s => s
  | smp :: rest, s =>
    if (check_button_press smp.now smp.raw s).1 = Button.OK_BTN then
      delete_wait_any rest
        { (check_button_press smp.now smp.raw s).2 with alarm1Active := false }
    else if (check_button_press smp.now smp.raw s).1 = Button.CANCEL_BTN then
      { (check_button_press smp.now smp.raw s).2 with
        currentState := MenuState.DELETE_ALARM, menuPosition := 0,
        menuInitialized := false }
    else delete_alarm_1 rest (check_button_press smp.now smp.raw s).2

/-- The function `delete_alarm_2`, same shape as `delete_alarm_1`. -/
def delete_alarm_2 : List Sample → MediState → MediState
  | [], s => s
  | smp :: rest, s =>
    if (check_button_press smp.now smp.raw s).1 = Button.OK_BTN then
      delete_wait_any rest
        { (check_button_press smp.now smp.raw s).2 with alarm2Active := false }
    else if (check_button_press smp.now smp.raw s).1 = Button.CANCEL_BTN then
      { (check_button_press smp.now smp.raw s).2 with
        currentState := MenuState.DELETE_ALARM, menuPosition := 0,
        menuInitialized := false }
    else delete_alarm_2 rest (check_button_press smp.now smp.raw s).2

/-- The function `run_mode`.  `now`/`r` feed its own `check_button_press`;
`rest` feeds the nested wait loops of the delete-confirmation screens. -/
def run_mode (now : Nat) (r : RawButtons) (rest : List Sample)
    (s0 : MediState) : MediState :=
  let b := (check_button_press now r s0).1
  let s := (check_button_press now r s0).2
  if b = Button.NONE then s
  else
    match s.currentState with
    | MenuState.MAIN_MENU =>
      if b = Button.UP ∧ 0 < s.menuPosition then
        { s with menuPosition := s.menuPosition - 1 }
      else if b = Button.DOWN ∧ s.menuPosition < 5 then
        { s with menuPosition := s.menuPosition + 1 }
      else if b = Button.OK_BTN then
        if s.menuPosition = 0 then
          { s with currentState := MenuState.SET_TIMEZONE,
                   menuInitialized := false }
        else if s.menuPosition = 1 then
          { s with currentState := MenuState.SET_ALARM_1,
                   settingHour := s.alarm1Hour,
                   settingMinute := s.alarm1Minute,
                   alarmSettingState := AlarmSettingState.SETTING_HOUR }
        else if s.menuPosition = 2 then
          { s with currentState := MenuState.SET_ALARM_2,
                   settingHour := s.alarm2Hour,
                   settingMinute := s.alarm2Minute,
                   alarmSettingState := AlarmSettingState.SETTING_HOUR }
        else if s.menuPosition = 3 then
          { s with currentState := MenuState.VIEW_ALARMS }
        else if s.menuPosition = 4 then
          { s with currentState := MenuState.DELETE_ALARM,
                   menuInitialized := false }
        else if s.menuPosition = 5 then
          { s with currentState := MenuState.NORMAL_DISPLAY }
        else s
      else if b = Button.CANCEL_BTN then
        { s with currentState := MenuState.NORMAL_DISPLAY }
      else s
    | MenuState.SET_TIMEZONE =>
      if s.menuInitialized = false then { s with menuInitialized := true }
      else if b = Button.UP ∧ s.timeZoneOffset < 12 then
        { s with timeZoneOffset := s.timeZoneOffset + 1/2 }
      else if b = Button.DOWN ∧ -12 < s.timeZoneOffset then
        { s with timeZoneOffset := s.timeZoneOffset - 1/2 }
      else if b = Button.OK_BTN then
        go_to_menu { s with currentState := MenuState.MAIN_MENU,
                            menuInitialized := false }
      else if b = Button.CANCEL_BTN then
        go_to_menu { s with currentState := MenuState.MAIN_MENU,
                            menuInitialized := false }
      else s
    | MenuState.SET_ALARM_1 => handle_alarm_setting 1 b s
    | MenuState.SET_ALARM_2 => handle_alarm_setting 2 b s
    | MenuState.VIEW_ALARMS =>
      if b = Button.CANCEL_BTN ∨ b = Button.OK_BTN then
        go_to_menu { s with currentState := MenuState.MAIN_MENU,
                            menuInitialized := false }
      else s
    | MenuState.DELETE_ALARM =>
      if s.menuInitialized = false then
        { (display_delete_alarm_menu
            { s with menuPosition :=
                if s.alarm1Active = false ∧ s.alarm2Active = false then 2
                else if s.alarm1Active = true then 0
                else if s.alarm2Active = true then 1
                else s.menuPosition })
          with menuInitialized := true }
      else if b = Button.UP then
        display_delete_alarm_menu
          { s with menuPosition :=
              deleteWrap s.alarm1Active s.alarm2Active 2 s.menuPosition }
      else if b = Button.DOWN then
        display_delete_alarm_menu
          { s with menuPosition :=
              deleteWrap s.alarm1Active s.alarm2Active 1 s.menuPosition }
      else if b = Button.OK_BTN then
        if s.menuPosition = 0 ∧ s.alarm1Active = true then
          { s with currentState := MenuState.DELETE_ALARM_1,
                   menuInitialized := false }
        else if s.menuPosition = 1 ∧ s.alarm2Active = true then
          { s with currentState := MenuState.DELETE_ALARM_2,
                   menuInitialized := false }
        else if s.menuPosition = 2 then
          go_to_menu { s with currentState := MenuState.MAIN_MENU,
                              menuInitialized := false }
        else s
      else if b = Button.CANCEL_BTN then
        go_to_menu { s with currentState := MenuState.MAIN_MENU,
                            menuInitialized := false }
      else s
    | MenuState.DELETE_ALARM_1 => delete_alarm_1 rest s
    | MenuState.DELETE_ALARM_2 => delete_alarm_2 rest s
    | _ => s

/-- Classification emitted by one environmental-monitor pass. -/
structure EnvReport where
  sampleFailed : Bool
  tempWarning : Bool
  humidityWarning : Bool
  alert : Bool
deriving DecidableEq, Repr

/-- The function `check_temp`.  It mutates no globals; besides the (unchanged)
state it returns the report the source would render: on a not-a-number sample
(`none`) it returns early with a sample failure and no warning or alert. -/
def check_temp (temperature humidity : Option ℚ) (s : MediState) :
    MediState × EnvReport :=
  match humidity, temperature with
  | some h, some t =>
    (s, { sampleFailed := false
          tempWarning := decide (t < MIN_HEALTHY_TEMP ∨ MAX_HEALTHY_TEMP < t)
          humidityWarning :=
            decide (h < MIN_HEALTHY_HUMIDITY ∨ MAX_HEALTHY_HUMIDITY < h)
          alert := decide (t < MIN_HEALTHY_TEMP ∨ MAX_HEALTHY_TEMP < t) ||
            decide (h < MIN_HEALTHY_HUMIDITY ∨ MAX_HEALTHY_HUMIDITY < h) })
  | _, _ =>
    (s, { sampleFailed := true, tempWarning := false,
          humidityWarning := false, alert := false })

/-- One pass of `loop()`: snooze expiry first, then either the ringing-alarm
handler (CANCEL stops, UP snoozes) or the normal-display / menu path. -/
def loop_tick (now : Nat) (time : Option Tm) (temperature humidity : Option ℚ)
    (raw : RawButtons) (rest : List Sample) (s0 : MediState) : MediState :=
  let s := check_snooze now s0
  if s.alarmRinging = false then
    if s.currentState = MenuState.NORMAL_DISPLAY then
      let s1 := update_time_with_check_alarm time now s
      let s2 := (check_temp temperature humidity s1).1
      let b := (check_button_press now raw s2).1
      let s3 := (check_button_press now raw s2).2
      if b = Button.OK_BTN then go_to_menu s3 else s3
    else run_mode now raw rest s
  else
    let b := (check_button_press now raw s).1
    let s1 := (check_button_press now raw s).2
    if b = Button.CANCEL_BTN then stop_alarm false now s1
    else if b = Button.UP then stop_alarm true now s1
    else s1

/-- Validity of the timezone offset: within plus or minus 12 hours and a
multiple of half an hour. -/
def tzValid (q : ℚ) : Prop := -12 ≤ q ∧ q ≤ 12 ∧ ∃ k : ℤ, q = k / 2

/-- Repeated menu interaction: feed one button poll per `loop` pass to
`run_mode` (with no nested-loop polls). -/
def pressTrace (ts : List Sample) (s : MediState) : MediState :=
  ts.foldl (fun st p => run_mode p.now p.raw [] st) s

/-- UP presses number 1..n, spaced wider than the debounce window. -/
def tzSamplesN (n : Nat) : List Sample :=
  (List.range n).map (fun i => { now := 300 * (i + 1), raw := rawUp })

/-- Timezone screen already displayed, offset at 0. -/
def tzStartState : MediState :=
  { initState with currentState := MenuState.SET_TIMEZONE,
                   menuInitialized := true }

/-- Poll samples with no button pressed, one second apart. -/
def idleSamples (n : Nat) : List Sample :=
  (List.range n).map (fun i => { now := 1000 * i, raw := rawNone })

/-- A delete-confirmation pending for alarm 1 while alarm 2 sits snoozed with
its snooze long expired. -/
def confirmPendingState : MediState :=
  { initState with currentState := MenuState.DELETE_ALARM_1,
                   alarm1Active := true, alarmSnoozing := true,
                   alarmRingingNum := 2, snoozeStartTime := 0 }

/-- Ring-controller fields untouched between two states. -/
def ringFrame (s t : MediState) : Prop :=
  t.alarmRinging = s.alarmRinging ∧ t.alarmSnoozing = s.alarmSnoozing ∧
  t.alarmRingingNum = s.alarmRingingNum ∧ t.snoozeStartTime = s.snoozeStartTime

/-- Stored alarm times untouched between two states. -/
def delFrame (s t : MediState) : Prop :=
  t.alarm1Hour = s.alarm1Hour ∧ t.alarm1Minute = s.alarm1Minute ∧
  t.alarm2Hour = s.alarm2Hour ∧ t.alarm2Minute = s.alarm2Minute

/-- Ringing and Snoozed are mutually exclusive in a state. -/
def ringExcl (s : MediState) : Prop :=
  s.alarmRinging = true → s.alarmSnoozing = false

/-- Invariant of the delete-alarm menu cursor when only alarm 2 is active:
the cursor rests on the Alarm-2 slot or on Back, never on the inactive
Alarm-1 slot. -/
def deleteMenuInv (s : MediState) : Prop :=
  s.currentState = MenuState.DELETE_ALARM ∧ s.menuInitialized = true ∧
  s.alarm1Active = false ∧ s.alarm2Active = true ∧
  (s.menuPosition = 1 ∨ s.menuPosition = 2)

/-- A full concrete run from boot: enter the menu, set alarm 1 to 00:01,
return to the clock, let the alarm fire at 00:01:00, then press CANCEL
(Stop) while it rings. -/
def stopClearsTrace : MediState :=
  loop_tick 2700 (some ⟨0, 1, 1⟩) none none rawCancel []
    (loop_tick 2400 (some ⟨0, 1, 0⟩) none none rawNone []
      (loop_tick 2100 none none none rawCancel []
        (loop_tick 1800 none none none rawOk []
          (loop_tick 1500 none none none rawUp []
            (loop_tick 1200 none none none rawOk []
              (loop_tick 900 none none none rawOk []
                (loop_tick 600 none none none rawDown []
                  (loop_tick 300 none none none rawOk [] initState))))))))

theorem readButton_rawNone : readButton rawNone = Button.NONE := rfl

theorem cbp_reject (now : Nat) (r : RawButtons) (s : MediState)
    (h : usub now s.lastButtonPressTime < DEBOUNCE_TIME) :
    check_button_press now r s = (Button.NONE, s) := by
  unfold check_button_press
  rw [if_pos h]

theorem cbp_accept (now : Nat) (r : RawButtons) (s : MediState)
    (h : ¬ usub now s.lastButtonPressTime < DEBOUNCE_TIME)
    (hr : readButton r ≠ Button.NONE) :
    check_button_press now r s =
      (readButton r, { s with lastButtonPressTime := now }) := by
  unfold check_button_press
  rw [if_neg h, if_neg hr]

theorem cbp_rawNone (now : Nat) (s : MediState) :
    check_button_press now rawNone s = (Button.NONE, s) := by
  unfold check_button_press
  by_cases h : usub now s.lastButtonPressTime < DEBOUNCE_TIME
  · rw [if_pos h]
  · rw [if_neg h, if_pos readButton_rawNone]

theorem cbp_shape (now : Nat) (r : RawButtons) (s : MediState) :
    (check_button_press now r s).2 = s ∨
    (check_button_press now r s).2 = { s with lastButtonPressTime := now } := by
  unfold check_button_press
  by_cases h : usub now s.lastButtonPressTime < DEBOUNCE_TIME
  · rw [if_pos h]
    exact Or.inl rfl
  · rw [if_neg h]
    by_cases h2 : readButton r = Button.NONE
    · rw [if_pos h2]
      exact Or.inl rfl
    · rw [if_neg h2]
      exact Or.inr rfl

theorem ringFrame_refl (s : MediState) : ringFrame s s := ⟨rfl, rfl, rfl, rfl⟩

theorem ringFrame_trans {s t u : MediState} (h1 : ringFrame s t)
    (h2 : ringFrame t u) : ringFrame s u :=
  ⟨h2.1.trans h1.1, h2.2.1.trans h1.2.1, h2.2.2.1.trans h1.2.2.1,
   h2.2.2.2.trans h1.2.2.2⟩

theorem cbp_ringFrame (now : Nat) (r : RawButtons) (s : MediState) :
    ringFrame s (check_button_press now r s).2 := by
  rcases cbp_shape now r s with h | h <;> rw [h]
  · exact ringFrame_refl s
  · exact ⟨rfl, rfl, rfl, rfl⟩

theorem go_to_menu_ringFrame (s : MediState) : ringFrame s (go_to_menu s) :=
  ⟨rfl, rfl, rfl, rfl⟩

theorem display_delete_alarm_menu_ringFrame (s : MediState) :
    ringFrame s (display_delete_alarm_menu s) := by
  unfold display_delete_alarm_menu
  split_ifs <;> exact ⟨rfl, rfl, rfl, rfl⟩

theorem handle_alarm_setting_ringFrame (n : Nat) (b : Button) (s : MediState) :
    ringFrame s (handle_alarm_setting n b s) := by
  unfold handle_alarm_setting go_to_menu
  split_ifs <;> exact ⟨rfl, rfl, rfl, rfl⟩

theorem delete_wait_any_ringFrame (samples : List Sample) :
    ∀ s : MediState, ringFrame s (delete_wait_any samples s) := by
  induction samples with
  | nil => exact fun s => ringFrame_refl s
  | cons smp rest ih =>
    intro s
    unfold delete_wait_any
    split_ifs with h
    · exact ringFrame_trans (cbp_ringFrame smp.now smp.raw s) (ih _)
    · exact ringFrame_trans (cbp_ringFrame smp.now smp.raw s) ⟨rfl, rfl, rfl, rfl⟩

theorem delete_alarm_1_ringFrame (samples : List Sample) :
    ∀ s : MediState, ringFrame s (delete_alarm_1 samples s) := by
  induction samples with
  | nil => exact fun s => ringFrame_refl s
  | cons smp rest ih =>
    intro s
    unfold delete_alarm_1
    split_ifs with h h2
    · refine ringFrame_trans (cbp_ringFrame smp.now smp.raw s) ?_
      exact ringFrame_trans (⟨rfl, rfl, rfl, rfl⟩ :
        ringFrame (check_button_press smp.now smp.raw s).2
          { (check_button_press smp.now smp.raw s).2 with alarm1Active := false })
        (delete_wait_any_ringFrame rest _)
    · exact ringFrame_trans (cbp_ringFrame smp.now smp.raw s) ⟨rfl, rfl, rfl, rfl⟩
    · exact ringFrame_trans (cbp_ringFrame smp.now smp.raw s) (ih _)

theorem delete_alarm_2_ringFrame (samples : List Sample) :
    ∀ s : MediState, ringFrame s (delete_alarm_2 samples s) := by
  induction samples with
  | nil => exact fun s => ringFrame_refl s
  | cons smp rest ih =>
    intro s
    unfold delete_alarm_2
    split_ifs with h h2
    · refine ringFrame_trans (cbp_ringFrame smp.now smp.raw s) ?_
      exact ringFrame_trans (⟨rfl, rfl, rfl, rfl⟩ :
        ringFrame (check_button_press smp.now smp.raw s).2
          { (check_button_press smp.now smp.raw s).2 with alarm2Active := false })
        (delete_wait_any_ringFrame rest _)
    · exact ringFrame_trans (cbp_ringFrame smp.now smp.raw s) ⟨rfl, rfl, rfl, rfl⟩
    · exact ringFrame_trans (cbp_ringFrame smp.now smp.raw s) (ih _)

set_option maxHeartbeats 2000000 in
theorem run_mode_ringFrame (now : Nat) (r : RawButtons) (rest : List Sample)
    (s0 : MediState) : ringFrame s0 (run_mode now r rest s0) := by
  have hX := cbp_ringFrame now r s0
  unfold run_mode
  generalize hT : (check_button_press now r s0).2 = t at hX ⊢
  refine ringFrame_trans hX ?_
  by_cases hb : (check_button_press now r s0).1 = Button.NONE
  · rw [if_pos hb]
    exact ringFrame_refl t
  · rw [if_neg hb]
    split
    · split_ifs <;> exact ⟨rfl, rfl, rfl, rfl⟩
    · split_ifs <;> exact ⟨rfl, rfl, rfl, rfl⟩
    · exact handle_alarm_setting_ringFrame 1 _ t
    · exact handle_alarm_setting_ringFrame 2 _ t
    · split_ifs <;> exact ⟨rfl, rfl, rfl, rfl⟩
    · split_ifs <;>
        first
          | exact ⟨rfl, rfl, rfl, rfl⟩
          | exact ringFrame_trans
              (show ringFrame t _ from ⟨rfl, rfl, rfl, rfl⟩)
              (display_delete_alarm_menu_ringFrame _)
    · exact delete_alarm_1_ringFrame rest t
    · exact delete_alarm_2_ringFrame rest t
    · exact ringFrame_refl t

theorem delFrame_refl (s : MediState) : delFrame s s := ⟨rfl, rfl, rfl, rfl⟩

theorem delFrame_trans {s t u : MediState} (h1 : delFrame s t)
    (h2 : delFrame t u) : delFrame s u :=
  ⟨h2.1.trans h1.1, h2.2.1.trans h1.2.1, h2.2.2.1.trans h1.2.2.1,
   h2.2.2.2.trans h1.2.2.2⟩

theorem cbp_delFrame (now : Nat) (r : RawButtons) (s : MediState) :
    delFrame s (check_button_press now r s).2 := by
  rcases cbp_shape now r s with h | h <;> rw [h]
  · exact delFrame_refl s
  · exact ⟨rfl, rfl, rfl, rfl⟩

theorem delete_wait_any_delFrame (samples : List Sample) :
    ∀ s : MediState, delFrame s (delete_wait_any samples s) := by
  induction samples with
  | nil => exact fun s => delFrame_refl s
  | cons smp rest ih =>
    intro s
    unfold delete_wait_any
    split_ifs with h
    · exact delFrame_trans (cbp_delFrame smp.now smp.raw s) (ih _)
    · exact delFrame_trans (cbp_delFrame smp.now smp.raw s) ⟨rfl, rfl, rfl, rfl⟩

theorem delete_alarm_1_delFrame (samples : List Sample) :
    ∀ s : MediState, delFrame s (delete_alarm_1 samples s) := by
  induction samples with
  | nil => exact fun s => delFrame_refl s
  | cons smp rest ih =>
    intro s
    unfold delete_alarm_1
    split_ifs with h h2
    · refine delFrame_trans (cbp_delFrame smp.now smp.raw s) ?_
      exact delFrame_trans (⟨rfl, rfl, rfl, rfl⟩ :
        delFrame (check_button_press smp.now smp.raw s).2
          { (check_button_press smp.now smp.raw s).2 with alarm1Active := false })
        (delete_wait_any_delFrame rest _)
    · exact delFrame_trans (cbp_delFrame smp.now smp.raw s) ⟨rfl, rfl, rfl, rfl⟩
    · exact delFrame_trans (cbp_delFrame smp.now smp.raw s) (ih _)

theorem delete_alarm_2_delFrame (samples : List Sample) :
    ∀ s : MediState, delFrame s (delete_alarm_2 samples s) := by
  induction samples with
  | nil => exact fun s => delFrame_refl s
  | cons smp rest ih =>
    intro s
    unfold delete_alarm_2
    split_ifs with h h2
    · refine delFrame_trans (cbp_delFrame smp.now smp.raw s) ?_
      exact delFrame_trans (⟨rfl, rfl, rfl, rfl⟩ :
        delFrame (check_button_press smp.now smp.raw s).2
          { (check_button_press smp.now smp.raw s).2 with alarm2Active := false })
        (delete_wait_any_delFrame rest _)
    · exact delFrame_trans (cbp_delFrame smp.now smp.raw s) ⟨rfl, rfl, rfl, rfl⟩
    · exact delFrame_trans (cbp_delFrame smp.now smp.raw s) (ih _)

theorem ringExcl_of_ringFrame {s t : MediState} (hf : ringFrame s t)
    (h : ringExcl s) : ringExcl t := by
  intro hr
  rw [hf.2.1]
  exact h (hf.1.symm.trans hr)

theorem check_snooze_ringExcl (now : Nat) (s : MediState) (h : ringExcl s) :
    ringExcl (check_snooze now s) := by
  unfold check_snooze
  split_ifs with hc
  · intro _
    rfl
  · exact h

theorem update_ringExcl (time : Option Tm) (now : Nat) (s : MediState)
    (h : ringExcl s) : ringExcl (update_time_with_check_alarm time now s) := by
  cases time with
  | none => exact h
  | some t =>
    simp only [update_time_with_check_alarm]
    split_ifs with h1 h2 h3
    · intro _
      exact h1.2
    · intro _
      exact h1.2
    · exact h
    · exact h

theorem stop_ringExcl (sn : Bool) (now : Nat) (s : MediState) :
    ringExcl (stop_alarm sn now s) := by
  unfold stop_alarm
  split_ifs
  · intro hq
    exact absurd hq (by simp)
  · intro _
    rfl

theorem check_temp_fst (temperature humidity : Option ℚ) (s : MediState) :
    (check_temp temperature humidity s).1 = s := by
  cases temperature <;> cases humidity <;> rfl

/-- C1: an active alarm whose hour/minute equal the adjusted time at second 0
rings within the same `update_time_with_check_alarm` pass, with its own id;
alarm 1 wins a tie; and no re-fire can occur within the matching minute, since
a pass in a non-Idle state (the state every fire leaves behind) or at a
nonzero second leaves the state untouched. -/
theorem C1_alarm_match_fires (s : MediState) (t : Tm) (now : Nat) :
    (s.alarmRinging = false → s.alarmSnoozing = false → s.alarm1Active = true →
      t.tm_hour = s.alarm1Hour → t.tm_min = s.alarm1Minute → t.tm_sec = 0 →
      (update_time_with_check_alarm (some t) now s).alarmRinging = true ∧
        (update_time_with_check_alarm (some t) now s).alarmRingingNum = 1) ∧
    (s.alarmRinging = false → s.alarmSnoozing = false → s.alarm2Active = true →
      t.tm_hour = s.alarm2Hour → t.tm_min = s.alarm2Minute → t.tm_sec = 0 →
      (s.alarm1Active = false ∨ t.tm_hour ≠ s.alarm1Hour ∨
        t.tm_min ≠ s.alarm1Minute) →
      (update_time_with_check_alarm (some t) now s).alarmRinging = true ∧
        (update_time_with_check_alarm (some t) now s).alarmRingingNum = 2) ∧
    (s.alarmRinging = false → s.alarmSnoozing = false → s.alarm1Active = true →
      t.tm_hour = s.alarm1Hour → t.tm_min = s.alarm1Minute → t.tm_sec = 0 →
      s.alarm2Active = true → t.tm_hour = s.alarm2Hour →
      t.tm_min = s.alarm2Minute →
      (update_time_with_check_alarm (some t) now s).alarmRingingNum = 1) ∧
    (s.alarmRinging = true ∨ s.alarmSnoozing = true →
      update_time_with_check_alarm (some t) now s = s) ∧
    (t.tm_sec ≠ 0 → update_time_with_check_alarm (some t) now s = s) := by
  refine ⟨?_, ?_, ?_, ?_, ?_⟩
  · intro hr hs ha hh hm hsec
    simp only [update_time_with_check_alarm]
    rw [if_pos ⟨hr, hs⟩, if_pos ⟨ha, hh, hm, hsec⟩]
    exact ⟨rfl, rfl⟩
  · intro hr hs ha hh hm hsec hnot
    simp only [update_time_with_check_alarm]
    rw [if_pos ⟨hr, hs⟩,
      if_neg (by rintro ⟨h1, h2, h3, h4⟩; rcases hnot with hn | hn | hn <;> simp_all),
      if_pos ⟨ha, hh, hm, hsec⟩]
    exact ⟨rfl, rfl⟩
  · intro hr hs ha hh hm hsec ha2 hh2 hm2
    simp only [update_time_with_check_alarm]
    rw [if_pos ⟨hr, hs⟩, if_pos ⟨ha, hh, hm, hsec⟩]
    rfl
  · intro h
    simp only [update_time_with_check_alarm]
    rw [if_neg (by rintro ⟨h1, h2⟩; rcases h with h | h <;> simp_all)]
  · intro h
    simp only [update_time_with_check_alarm]
    split_ifs with h1 h2 h3
    · exact absurd h2.2.2.2 h
    · exact absurd h3.2.2.2 h
    · rfl
    · rfl

/-- C1 witness: both alarms set to 08:30; at 08:30:00 from Idle the pass rings
alarm 1 (the tie-break); with only alarm 2 set at 00:00:00 it rings alarm 2;
at second 5 the state is untouched. -/
theorem C1_alarm_match_fires_witness :
    (update_time_with_check_alarm (some ⟨8, 30, 0⟩) 100
        { initState with alarm1Active := true, alarm2Active := true,
                         alarm1Hour := 8, alarm1Minute := 30,
                         alarm2Hour := 8, alarm2Minute := 30 }).alarmRinging
      = true ∧
    (update_time_with_check_alarm (some ⟨8, 30, 0⟩) 100
        { initState with alarm1Active := true, alarm2Active := true,
                         alarm1Hour := 8, alarm1Minute := 30,
                         alarm2Hour := 8, alarm2Minute := 30 }).alarmRingingNum
      = 1 ∧
    (update_time_with_check_alarm (some ⟨0, 0, 0⟩) 100
        { initState with alarm2Active := true }).alarmRingingNum = 2 ∧
    update_time_with_check_alarm (some ⟨8, 30, 5⟩) 100
        { initState with alarm1Active := true, alarm1Hour := 8,
                         alarm1Minute := 30 }
      = { initState with alarm1Active := true, alarm1Hour := 8,
                         alarm1Minute := 30 } := by
  refine ⟨?_, ?_, ?_, ?_⟩
  · exact ((C1_alarm_match_fires _ _ 100).1 rfl rfl rfl rfl rfl rfl).1
  · exact ((C1_alarm_match_fires _ _ 100).2.2.1 rfl rfl rfl rfl rfl rfl rfl rfl rfl)
  · exact ((C1_alarm_match_fires _ _ 100).2.1 rfl rfl rfl rfl rfl rfl
      (Or.inl rfl)).2
  · exact (C1_alarm_match_fires _ _ 100).2.2.2.2 (by decide)

/-- C2 counterexample: with alarm 1 ringing and the debounce window clear, a
tick with only CANCEL pressed leaves the system neither snoozed (refuting
"Cancel acts as Snooze") nor ringing: the code stops the alarm instead. -/
theorem C2_cancel_is_stop_cex :
    (loop_tick 1000 none none none rawCancel []
        { initState with alarmRinging := true,
                         alarmRingingNum := 1 }).alarmSnoozing = false ∧
    (loop_tick 1000 none none none rawCancel []
        { initState with alarmRinging := true,
                         alarmRingingNum := 1 }).alarmRinging = false := by
  decide

/-- C2 amended: while an alarm rings, CANCEL stops it (back to Idle) and UP
snoozes it, preserving the ringing alarm id. -/
theorem C2_cancel_stops_up_snoozes (s : MediState) (now : Nat)
    (time : Option Tm) (temperature humidity : Option ℚ)
    (hr : s.alarmRinging = true) (hs : s.alarmSnoozing = false)
    (hd : ¬ usub now s.lastButtonPressTime < DEBOUNCE_TIME) :
    (loop_tick now time temperature humidity rawCancel [] s).alarmRinging
      = false ∧
    (loop_tick now time temperature humidity rawCancel [] s).alarmSnoozing
      = false ∧
    (loop_tick now time temperature humidity rawUp [] s).alarmRinging = false ∧
    (loop_tick now time temperature humidity rawUp [] s).alarmSnoozing = true ∧
    (loop_tick now time temperature humidity rawUp [] s).alarmRingingNum
      = s.alarmRingingNum := by
  have hcs : check_snooze now s = s := by
    unfold check_snooze
    rw [if_neg]
    rintro ⟨h1, h2⟩
    rw [hs] at h1
    cases h1
  have hc1 : check_button_press now rawCancel s =
      (Button.CANCEL_BTN, { s with lastButtonPressTime := now }) :=
    cbp_accept now rawCancel s hd (by decide)
  have hc2 : check_button_press now rawUp s =
      (Button.UP, { s with lastButtonPressTime := now }) :=
    cbp_accept now rawUp s hd (by decide)
  simp [loop_tick, hcs, hr, hc1, hc2, stop_alarm]

/-- C3: from Ringing, a Snooze event (UP) moves to Snoozed recording the snooze
start; once at least SNOOZE_DURATION of 32-bit clock has elapsed, a tick with
no button pressed autonomously re-enters Ringing with the same alarm id. -/
theorem C3_snooze_rering (s : MediState) (now now2 : Nat) (time : Option Tm)
    (temperature humidity : Option ℚ) (hr : s.alarmRinging = true)
    (hd : SNOOZE_DURATION ≤ usub now2 now) :
    (stop_alarm true now s).alarmRinging = false ∧
    (stop_alarm true now s).alarmSnoozing = true ∧
    (stop_alarm true now s).snoozeStartTime = now ∧
    (stop_alarm true now s).alarmRingingNum = s.alarmRingingNum ∧
    (loop_tick now2 time temperature humidity rawNone []
        (stop_alarm true now s)).alarmRinging = true ∧
    (loop_tick now2 time temperature humidity rawNone []
        (stop_alarm true now s)).alarmSnoozing = false ∧
    (loop_tick now2 time temperature humidity rawNone []
        (stop_alarm true now s)).alarmRingingNum = s.alarmRingingNum := by
  have h2 : check_snooze now2 (stop_alarm true now s) =
      ring_alarm (stop_alarm true now s).alarmRingingNum now2
        { (stop_alarm true now s) with alarmSnoozing := false } := by
    unfold check_snooze
    rw [if_pos]
    exact ⟨rfl, hd⟩
  refine ⟨rfl, rfl, rfl, rfl, ?_⟩
  simp only [loop_tick, h2]
  rw [if_neg (by simp [ring_alarm])]
  rw [cbp_rawNone]
  simp [ring_alarm, stop_alarm]

/-- C3 witness: a concrete ringing state snoozed at time 1000 re-rings alarm 2
at time 302000 with no buttons pressed. -/
theorem C3_snooze_rering_witness :
    (loop_tick 302000 none none none rawNone []
        (stop_alarm true 1000
          { initState with alarmRinging := true,
                           alarmRingingNum := 2 })).alarmRinging = true ∧
    (loop_tick 302000 none none none rawNone []
        (stop_alarm true 1000
          { initState with alarmRinging := true,
                           alarmRingingNum := 2 })).alarmRingingNum = 2 := by
  have h := C3_snooze_rering
    { initState with alarmRinging := true, alarmRingingNum := 2 }
    1000 302000 none none none rfl (by decide)
  exact ⟨h.2.2.2.2.1, h.2.2.2.2.2.2⟩

/-- C4: the delete-confirmation screens are nested blocking loops that never
run `check_snooze`: over any poll list the ring and snooze fields are frozen,
and concretely a pending alarm-1 confirmation holds alarm 2 in Snoozed across
eight idle polls even though its snooze expired long ago (a bare
`check_snooze` at that time would re-ring it). -/
theorem C4_delete_confirm_starves_snooze :
    (∀ (samples : List Sample) (s : MediState),
        ringFrame s (delete_alarm_1 samples s) ∧
        ringFrame s (delete_alarm_2 samples s)) ∧
    (delete_alarm_1 (idleSamples 8) confirmPendingState).alarmRinging = false ∧
    (delete_alarm_1 (idleSamples 8) confirmPendingState).alarmSnoozing = true ∧
    (check_snooze 400000 confirmPendingState).alarmRinging = true ∧
    (check_snooze 400000 confirmPendingState).alarmRingingNum = 2 := by
  refine ⟨fun samples s =>
    ⟨delete_alarm_1_ringFrame samples s, delete_alarm_2_ringFrame samples s⟩,
    ?_, ?_, ?_, ?_⟩ <;> decide

/-- C5 counterexample: a full concrete run from boot (set alarm 1 to 00:01,
let it ring, press CANCEL) reaches an Idle state whose alarmRingingNum is
still 1: the Stop transition does not clear the alarm id, refuting "alarmId
is set only while mode is not Idle". -/
theorem C5_stop_keeps_alarm_id_cex :
    stopClearsTrace.alarmRinging = false ∧
    stopClearsTrace.alarmSnoozing = false ∧
    stopClearsTrace.alarmRingingNum = 1 := by
  decide

/-- C5 amended: a Stop event returns to Idle silencing both modes but leaves
`alarmRingingNum` unchanged; Ringing and Snoozed are mutually exclusive at
boot and that exclusivity is preserved by every tick of the control loop. -/
theorem C5_ring_snooze_exclusive (now : Nat) (time : Option Tm)
    (temperature humidity : Option ℚ) (raw : RawButtons) (rest : List Sample)
    (s : MediState) :
    ((stop_alarm false now s).alarmRinging = false ∧
     (stop_alarm false now s).alarmSnoozing = false ∧
     (stop_alarm false now s).alarmRingingNum = s.alarmRingingNum) ∧
    ringExcl initState ∧
    (ringExcl s →
      ringExcl (loop_tick now time temperature humidity raw rest s)) := by
  refine ⟨⟨rfl, rfl, rfl⟩, fun _ => rfl, ?_⟩
  intro hx
  have h1 := check_snooze_ringExcl now s hx
  simp only [loop_tick]
  by_cases hrb : (check_snooze now s).alarmRinging = false
  · rw [if_pos hrb]
    by_cases hn : (check_snooze now s).currentState = MenuState.NORMAL_DISPLAY
    · rw [if_pos hn]
      rw [check_temp_fst]
      have h2 := update_ringExcl time now (check_snooze now s) h1
      have h3 := ringExcl_of_ringFrame
        (cbp_ringFrame now raw
          (update_time_with_check_alarm time now (check_snooze now s))) h2
      split_ifs with hb
      · exact ringExcl_of_ringFrame (go_to_menu_ringFrame _) h3
      · exact h3
    · rw [if_neg hn]
      exact ringExcl_of_ringFrame (run_mode_ringFrame now raw rest _) h1
  · rw [if_neg hrb]
    split_ifs with hb hb2
    · exact stop_ringExcl false now _
    · exact stop_ringExcl true now _
    · exact ringExcl_of_ringFrame (cbp_ringFrame now raw _) h1

/-- C5 witness: the exclusivity-preservation conjunct applied at boot across
one idle tick. -/
theorem C5_ring_snooze_exclusive_witness :
    ringExcl (loop_tick 300 none none none rawNone [] initState) :=
  (C5_ring_snooze_exclusive 300 none none none rawNone []
    initState).2.2 (fun _ => rfl)

/-- C9: a not-a-number reading for either sensor makes `check_temp` return
early: the state is bitwise unchanged and the report carries no warning
classification and no alert, only the sample failure. -/
theorem C9_nan_skips_tick (temperature humidity : Option ℚ) (s : MediState)
    (h : temperature = none ∨ humidity = none) :
    check_temp temperature humidity s =
      (s, { sampleFailed := true, tempWarning := false,
            humidityWarning := false, alert := false }) := by
  rcases h with h | h
  · subst h
    cases humidity <;> rfl
  · subst h
    cases temperature <;> rfl

/-- C9 witness: a failed temperature sample beside a valid humidity sample. -/
theorem C9_nan_skips_tick_witness :
    check_temp none (some 70) initState =
      (initState, { sampleFailed := true, tempWarning := false,
                    humidityWarning := false, alert := false }) :=
  C9_nan_skips_tick none (some 70) initState (Or.inl rfl)

/-- C2 witness: a concrete ringing state where UP indeed snoozes. -/
theorem C2_cancel_stops_up_snoozes_witness :
    (loop_tick 1000 none none none rawUp []
        { initState with alarmRinging := true,
                         alarmRingingNum := 1 }).alarmSnoozing = true :=
  (C2_cancel_stops_up_snoozes
    { initState with alarmRinging := true, alarmRingingNum := 1 }
    1000 none none none rfl rfl (by decide)).2.2.2.1

theorem usub_eq_sub {a b : Nat} (hba : b ≤ a) (ha : a < u32) :
    usub a b = a - b := by
  unfold usub
  rw [Nat.mod_eq_of_lt (lt_of_le_of_lt hba ha)]
  have h1 : a + (u32 - b) = (a - b) + u32 := by
    have h2 : b ≤ u32 := le_of_lt (lt_of_le_of_lt hba ha)
    omega
  rw [h1, Nat.add_mod_right, Nat.mod_eq_of_lt]
  omega

theorem run_mode_tz_up_eq (s : MediState) (now : Nat)
    (hc : s.currentState = MenuState.SET_TIMEZONE)
    (hi : s.menuInitialized = true)
    (hd : ¬ usub now s.lastButtonPressTime < DEBOUNCE_TIME) :
    run_mode now rawUp [] s =
      { s with
        timeZoneOffset := (if s.timeZoneOffset < 12 then
          s.timeZoneOffset + 1/2 else s.timeZoneOffset),
        lastButtonPressTime := now } := by
  have hb : check_button_press now rawUp s =
      (Button.UP, { s with lastButtonPressTime := now }) :=
    cbp_accept now rawUp s hd (by decide)
  simp only [run_mode, hb, hc, hi]
  split_ifs <;> simp_all

theorem run_mode_tz_down_eq (s : MediState) (now : Nat)
    (hc : s.currentState = MenuState.SET_TIMEZONE)
    (hi : s.menuInitialized = true)
    (hd : ¬ usub now s.lastButtonPressTime < DEBOUNCE_TIME) :
    run_mode now rawDown [] s =
      { s with
        timeZoneOffset := (if -12 < s.timeZoneOffset then
          s.timeZoneOffset - 1/2 else s.timeZoneOffset),
        lastButtonPressTime := now } := by
  have hb : check_button_press now rawDown s =
      (Button.DOWN, { s with lastButtonPressTime := now }) :=
    cbp_accept now rawDown s hd (by decide)
  simp only [run_mode, hb, hc, hi]
  split_ifs <;> simp_all

theorem tzSamplesN_succ (n : Nat) :
    tzSamplesN (n + 1) = tzSamplesN n ++ [⟨300 * (n + 1), rawUp⟩] := by
  simp [tzSamplesN, List.range_succ]

theorem pressTrace_append (xs : List Sample) (x : Sample) (s : MediState) :
    pressTrace (xs ++ [x]) s = run_mode x.now x.raw [] (pressTrace xs s) := by
  simp [pressTrace, List.foldl_append]

theorem tz_iter (n : Nat) (hn : n ≤ 30) :
    (pressTrace (tzSamplesN n) tzStartState).currentState
        = MenuState.SET_TIMEZONE ∧
    (pressTrace (tzSamplesN n) tzStartState).menuInitialized = true ∧
    (pressTrace (tzSamplesN n) tzStartState).timeZoneOffset
        = ((min n 24 : ℕ) : ℚ) / 2 ∧
    (pressTrace (tzSamplesN n) tzStartState).lastButtonPressTime = 300 * n := by
  induction n with
  | zero =>
    refine ⟨rfl, rfl, ?_, rfl⟩
    show (0 : ℚ) = ((min 0 24 : ℕ) : ℚ) / 2
    norm_num
  | succ m ih =>
    obtain ⟨h1, h2, h3, h4⟩ := ih (by omega)
    rw [tzSamplesN_succ, pressTrace_append]
    have hd : ¬ usub (300 * (m + 1))
        (pressTrace (tzSamplesN m) tzStartState).lastButtonPressTime
          < DEBOUNCE_TIME := by
      rw [h4, usub_eq_sub (by omega) (by unfold u32; omega)]
      unfold DEBOUNCE_TIME
      omega
    rw [run_mode_tz_up_eq _ _ h1 h2 hd]
    refine ⟨h1, h2, ?_, rfl⟩
    rw [h3]
    by_cases hm : m < 24
    · rw [if_pos]
      · rw [Nat.min_eq_left (by omega), Nat.min_eq_left (by omega)]
        push_cast
        ring
      · rw [Nat.min_eq_left (by omega)]
        have : (m : ℚ) < 24 := by exact_mod_cast hm
        linarith
    · rw [if_neg]
      · rw [Nat.min_eq_right (by omega), Nat.min_eq_right (by omega)]
      · rw [Nat.min_eq_right (by omega)]
        norm_num

set_option maxRecDepth 16000

/-- C6: the timezone offset stays a multiple of half an hour within plus or
minus 12; UP and DOWN on the timezone screen are no-ops at the clamps; and
thirty consecutive UP presses from offset 0 saturate at exactly +12. -/
theorem C6_timezone_clamped (s : MediState) (now : Nat) :
    (s.currentState = MenuState.SET_TIMEZONE → s.menuInitialized = true →
      ¬ usub now s.lastButtonPressTime < DEBOUNCE_TIME →
      tzValid s.timeZoneOffset →
      tzValid (run_mode now rawUp [] s).timeZoneOffset ∧
      tzValid (run_mode now rawDown [] s).timeZoneOffset) ∧
    (s.currentState = MenuState.SET_TIMEZONE → s.menuInitialized = true →
      ¬ usub now s.lastButtonPressTime < DEBOUNCE_TIME →
      s.timeZoneOffset = 12 →
      (run_mode now rawUp [] s).timeZoneOffset = 12) ∧
    (s.currentState = MenuState.SET_TIMEZONE → s.menuInitialized = true →
      ¬ usub now s.lastButtonPressTime < DEBOUNCE_TIME →
      s.timeZoneOffset = -12 →
      (run_mode now rawDown [] s).timeZoneOffset = -12) ∧
    (pressTrace (tzSamplesN 30) tzStartState).timeZoneOffset = 12 := by
  refine ⟨?_, ?_, ?_, ?_⟩
  · intro hc hi hd hv
    obtain ⟨hlo, hhi, k, hk⟩ := hv
    rw [run_mode_tz_up_eq s now hc hi hd, run_mode_tz_down_eq s now hc hi hd]
    constructor
    · show tzValid (if s.timeZoneOffset < 12 then s.timeZoneOffset + 1/2
        else s.timeZoneOffset)
      split_ifs with h
      · have hkq : (k : ℚ) < 24 := by rw [hk] at h; linarith
        have hkz : k ≤ 23 := by
          have h24 : k < 24 := by exact_mod_cast hkq
          omega
        have hkq2 : (k : ℚ) ≤ 23 := by exact_mod_cast hkz
        refine ⟨by linarith, by rw [hk]; linarith, k + 1, ?_⟩
        rw [hk]
        push_cast
        ring
      · exact ⟨hlo, hhi, k, hk⟩
    · show tzValid (if -12 < s.timeZoneOffset then s.timeZoneOffset - 1/2
        else s.timeZoneOffset)
      split_ifs with h
      · have hkq : (-24 : ℚ) < k := by rw [hk] at h; linarith
        have hkz : -23 ≤ k := by
          have h24 : (-24 : ℤ) < k := by exact_mod_cast hkq
          omega
        have hkq2 : (-23 : ℚ) ≤ (k : ℚ) := by exact_mod_cast hkz
        refine ⟨by rw [hk]; linarith, by linarith, k - 1, ?_⟩
        rw [hk]
        push_cast
        ring
      · exact ⟨hlo, hhi, k, hk⟩
  · intro hc hi hd ht
    rw [run_mode_tz_up_eq s now hc hi hd]
    show (if s.timeZoneOffset < 12 then s.timeZoneOffset + 1/2
      else s.timeZoneOffset) = 12
    rw [ht]
    norm_num
  · intro hc hi hd ht
    rw [run_mode_tz_down_eq s now hc hi hd]
    show (if -12 < s.timeZoneOffset then s.timeZoneOffset - 1/2
      else s.timeZoneOffset) = -12
    rw [ht]
    norm_num
  · have h := (tz_iter 30 (by omega)).2.2.1
    rw [h]
    norm_num

/-- C6 witness: one UP press on the timezone screen from a valid offset keeps
it valid, and the UP/DOWN clamps hold at the extremes. -/
theorem C6_timezone_clamped_witness :
    tzValid (run_mode 300 rawUp [] tzStartState).timeZoneOffset ∧
    (run_mode 300 rawUp []
        { tzStartState with timeZoneOffset := 12 }).timeZoneOffset = 12 ∧
    (run_mode 300 rawDown []
        { tzStartState with timeZoneOffset := -12 }).timeZoneOffset = -12 := by
  refine ⟨((C6_timezone_clamped tzStartState 300).1 rfl rfl (by decide)
      (show tzValid (0 : ℚ) from ⟨by norm_num, by norm_num, 0, by norm_num⟩)).1,
      ?_, ?_⟩
  · exact (C6_timezone_clamped { tzStartState with timeZoneOffset := 12 }
      300).2.1 rfl rfl (by decide) rfl
  · exact (C6_timezone_clamped { tzStartState with timeZoneOffset := -12 }
      300).2.2.1 rfl rfl (by decide) rfl

/-- C7 counterexample: the UP line is held LOW at two successive polls 300 ms
apart with no release in between, yet both polls are accepted as events: the
debouncer auto-repeats on a held button, refuting "exactly one event until
release and re-press". -/
theorem C7_hold_autorepeat_cex :
    (check_button_press 300 rawUp initState).1 = Button.UP ∧
    (check_button_press 600 rawUp
        ((check_button_press 300 rawUp initState).2)).1 = Button.UP := by
  decide

/-- C7 amended: the debouncer is purely time based: any poll within 250 ms of
the previously accepted event yields no event (so two raw transitions within
250 ms of an accepted press produce exactly one accepted event), and a poll at
or past 250 ms with the button still held is accepted again (auto-repeat). -/
theorem C7_debounce_window (s : MediState) (now now2 : Nat)
    (r r2 : RawButtons) :
    (usub now s.lastButtonPressTime < DEBOUNCE_TIME →
      check_button_press now r s = (Button.NONE, s)) ∧
    (¬ usub now s.lastButtonPressTime < DEBOUNCE_TIME →
      readButton r ≠ Button.NONE → usub now2 now < DEBOUNCE_TIME →
      check_button_press now2 r2 ((check_button_press now r s).2) =
        (Button.NONE, (check_button_press now r s).2)) ∧
    (¬ usub now s.lastButtonPressTime < DEBOUNCE_TIME →
      ¬ usub now2 now < DEBOUNCE_TIME →
      (check_button_press now rawUp s).1 = Button.UP ∧
      (check_button_press now2 rawUp ((check_button_press now rawUp s).2)).1
        = Button.UP) := by
  refine ⟨cbp_reject now r s, ?_, ?_⟩
  · intro h1 h2 h3
    rw [cbp_accept now r s h1 h2]
    exact cbp_reject now2 r2 _ h3
  · intro h1 h2
    have ha : check_button_press now rawUp s =
        (Button.UP, { s with lastButtonPressTime := now }) :=
      cbp_accept now rawUp s h1 (by decide)
    rw [ha]
    refine ⟨rfl, ?_⟩
    rw [cbp_accept now2 rawUp _ h2 (by decide)]
    rfl

/-- C7 witness: a poll 100 ms after the last accepted press is rejected; a
bounced second transition 100 ms after an accepted press is rejected; a hold
at 300 ms spacing is accepted again. -/
theorem C7_debounce_window_witness :
    check_button_press 100 rawUp { initState with lastButtonPressTime := 0 } =
      (Button.NONE, { initState with lastButtonPressTime := 0 }) ∧
    check_button_press 400 rawCancel
        ((check_button_press 300 rawUp initState).2) =
      (Button.NONE, (check_button_press 300 rawUp initState).2) ∧
    (check_button_press 600 rawUp
        ((check_button_press 300 rawUp initState).2)).1 = Button.UP := by
  refine ⟨(C7_debounce_window { initState with lastButtonPressTime := 0 }
      100 0 rawUp rawUp).1 (by decide),
    (C7_debounce_window initState 300 400 rawUp rawCancel).2.1
      (by decide) (by decide) (by decide),
    ((C7_debounce_window initState 300 600 rawUp rawUp).2.2
      (by decide) (by decide)).2⟩

theorem deleteMenuInv_step (s : MediState) (p : Sample)
    (h : deleteMenuInv s) (hp : p.raw = rawUp ∨ p.raw = rawDown) :
    deleteMenuInv (run_mode p.now p.raw [] s) := by
  obtain ⟨hc, hi, ha1, ha2, hpos⟩ := h
  by_cases hd : usub p.now s.lastButtonPressTime < DEBOUNCE_TIME
  · have hb := cbp_reject p.now p.raw s hd
    simp only [run_mode, hb]
    simp only [reduceIte]
    exact ⟨hc, hi, ha1, ha2, hpos⟩
  · rcases hp with hp | hp <;> rw [hp]
    · have hb : check_button_press p.now rawUp s =
          (Button.UP, { s with lastButtonPressTime := p.now }) :=
        cbp_accept p.now rawUp s hd (by decide)
      rcases hpos with h5 | h5 <;>
        simp [run_mode, hb, hc, hi, ha1, ha2, h5, deleteMenuInv, deleteWrap,
          display_delete_alarm_menu]
    · have hb : check_button_press p.now rawDown s =
          (Button.DOWN, { s with lastButtonPressTime := p.now }) :=
        cbp_accept p.now rawDown s hd (by decide)
      rcases hpos with h5 | h5 <;>
        simp [run_mode, hb, hc, hi, ha1, ha2, h5, deleteMenuInv, deleteWrap,
          display_delete_alarm_menu]

theorem deleteMenuInv_trace (trace : List Sample) :
    ∀ s : MediState, deleteMenuInv s →
      (∀ p ∈ trace, p.raw = rawUp ∨ p.raw = rawDown) →
      deleteMenuInv (pressTrace trace s) := by
  induction trace with
  | nil => exact fun s h _ => h
  | cons p rest ih =>
    intro s h hall
    have hstep := deleteMenuInv_step s p h (hall p (by simp))
    have hre : pressTrace (p :: rest) s =
        pressTrace rest (run_mode p.now p.raw [] s) := by
      simp [pressTrace]
    rw [hre]
    exact ih _ hstep (fun q hq => hall q (by simp [hq]))

/-- C8: entering the delete menu with only alarm 2 active auto-selects the
Alarm-2 slot; from there any sequence of UP and DOWN presses keeps the cursor
on the Alarm-2 slot or Back, never the inactive Alarm-1 slot; with neither
alarm active, entry forces the cursor to Back. -/
theorem C8_delete_cursor_skips_inactive (s s2 : MediState) (now : Nat)
    (r : RawButtons) (trace : List Sample) :
    (s.currentState = MenuState.DELETE_ALARM → s.menuInitialized = false →
      s.alarm1Active = false → s.alarm2Active = true →
      ¬ usub now s.lastButtonPressTime < DEBOUNCE_TIME →
      readButton r ≠ Button.NONE →
      (run_mode now r [] s).menuPosition = 1 ∧
        deleteMenuInv (run_mode now r [] s)) ∧
    (deleteMenuInv s2 → (∀ p ∈ trace, p.raw = rawUp ∨ p.raw = rawDown) →
      deleteMenuInv (pressTrace trace s2) ∧
        (pressTrace trace s2).menuPosition ≠ 0) ∧
    (s.currentState = MenuState.DELETE_ALARM → s.menuInitialized = false →
      s.alarm1Active = false → s.alarm2Active = false →
      ¬ usub now s.lastButtonPressTime < DEBOUNCE_TIME →
      readButton r ≠ Button.NONE →
      (run_mode now r [] s).menuPosition = 2) := by
  refine ⟨?_, ?_, ?_⟩
  · intro hc hi ha1 ha2 hd hrb
    have hb : check_button_press now r s =
        (readButton r, { s with lastButtonPressTime := now }) :=
      cbp_accept now r s hd hrb
    simp [run_mode, hb, hc, hi, ha1, ha2, hrb, display_delete_alarm_menu,
      deleteMenuInv]
  · intro h2 hall
    have hinv := deleteMenuInv_trace trace s2 h2 hall
    refine ⟨hinv, ?_⟩
    rcases hinv.2.2.2.2 with h | h <;> simp [h]
  · intro hc hi ha1 ha2 hd hrb
    have hb : check_button_press now r s =
        (readButton r, { s with lastButtonPressTime := now }) :=
      cbp_accept now r s hd hrb
    simp [run_mode, hb, hc, hi, ha1, ha2, hrb, display_delete_alarm_menu]

/-- C8 witness: concrete delete-menu entry with only alarm 2 active lands on
slot 1; one UP press keeps the cursor off slot 0; with no alarms active entry
lands on Back. -/
theorem C8_delete_cursor_skips_inactive_witness :
    (run_mode 300 rawOk []
        { initState with currentState := MenuState.DELETE_ALARM,
                         alarm2Active := true }).menuPosition = 1 ∧
    (pressTrace [⟨300, rawUp⟩]
        { initState with currentState := MenuState.DELETE_ALARM,
                         alarm2Active := true, menuInitialized := true,
                         menuPosition := 1 }).menuPosition ≠ 0 ∧
    (run_mode 300 rawOk []
        { initState with
            currentState := MenuState.DELETE_ALARM }).menuPosition = 2 := by
  refine ⟨((C8_delete_cursor_skips_inactive
      { initState with currentState := MenuState.DELETE_ALARM,
                       alarm2Active := true }
      initState 300 rawOk []).1 rfl rfl rfl rfl (by decide) (by decide)).1,
    ((C8_delete_cursor_skips_inactive initState
      { initState with currentState := MenuState.DELETE_ALARM,
                       alarm2Active := true, menuInitialized := true,
                       menuPosition := 1 }
      300 rawOk [⟨300, rawUp⟩]).2.1
        ⟨rfl, rfl, rfl, rfl, Or.inl rfl⟩
        (fun p hp => by simp at hp; rw [hp]; exact Or.inl rfl)).2,
    (C8_delete_cursor_skips_inactive
      { initState with currentState := MenuState.DELETE_ALARM }
      initState 300 rawOk []).2.2 rfl rfl rfl rfl (by decide) (by decide)⟩

/-- C10: the delete-confirmation flow clears only the active flag: the stored
hour and minute of both alarms survive any interaction with the confirmation
loops, and re-entering Set Alarm for alarm 1 from the main menu seeds the
editor with the stored hour and minute. -/
theorem C10_delete_preserves_time_fields (samples : List Sample)
    (s s2 : MediState) (now now2 : Nat) :
    ((delete_alarm_1 samples s).alarm1Hour = s.alarm1Hour ∧
     (delete_alarm_1 samples s).alarm1Minute = s.alarm1Minute ∧
     (delete_alarm_2 samples s).alarm2Hour = s.alarm2Hour ∧
     (delete_alarm_2 samples s).alarm2Minute = s.alarm2Minute) ∧
    (¬ usub now s.lastButtonPressTime < DEBOUNCE_TIME →
      (delete_alarm_1 [⟨now, rawOk⟩] s).alarm1Active = false ∧
      (delete_alarm_1 [⟨now, rawOk⟩] s).alarm1Hour = s.alarm1Hour ∧
      (delete_alarm_1 [⟨now, rawOk⟩] s).alarm1Minute = s.alarm1Minute) ∧
    (s2.currentState = MenuState.MAIN_MENU → s2.menuPosition = 1 →
      ¬ usub now2 s2.lastButtonPressTime < DEBOUNCE_TIME →
      (run_mode now2 rawOk [] s2).settingHour = s2.alarm1Hour ∧
      (run_mode now2 rawOk [] s2).settingMinute = s2.alarm1Minute ∧
      (run_mode now2 rawOk [] s2).currentState = MenuState.SET_ALARM_1) := by
  refine ⟨?_, ?_, ?_⟩
  · obtain ⟨a1, b1, _, _⟩ := delete_alarm_1_delFrame samples s
    obtain ⟨_, _, c2, d2⟩ := delete_alarm_2_delFrame samples s
    exact ⟨a1, b1, c2, d2⟩
  · intro hd
    have hb : check_button_press now rawOk s =
        (Button.OK_BTN, { s with lastButtonPressTime := now }) :=
      cbp_accept now rawOk s hd (by decide)
    simp [delete_alarm_1, hb, delete_wait_any]
  · intro hc hp hd
    have hb : check_button_press now2 rawOk s2 =
        (Button.OK_BTN, { s2 with lastButtonPressTime := now2 }) :=
      cbp_accept now2 rawOk s2 hd (by decide)
    simp [run_mode, hb, hc, hp]

/-- C10 witness: deleting alarm 1 (set to 07:30) clears only its flag and a
subsequent Set Alarm 1 from the main menu seeds the editor with 07:30. -/
theorem C10_delete_preserves_time_fields_witness :
    (delete_alarm_1 [⟨300, rawOk⟩]
        { initState with alarm1Active := true, alarm1Hour := 7,
                         alarm1Minute := 30 }).alarm1Active = false ∧
    (delete_alarm_1 [⟨300, rawOk⟩]
        { initState with alarm1Active := true, alarm1Hour := 7,
                         alarm1Minute := 30 }).alarm1Hour = 7 ∧
    (run_mode 300 rawOk []
        { initState with currentState := MenuState.MAIN_MENU,
                         menuPosition := 1, alarm1Hour := 7,
                         alarm1Minute := 30 }).settingHour = 7 := by
  refine ⟨?_, ?_, ?_⟩
  · exact ((C10_delete_preserves_time_fields [⟨300, rawOk⟩]
      { initState with alarm1Active := true, alarm1Hour := 7,
                       alarm1Minute := 30 }
      initState 300 0).2.1 (by decide)).1
  · exact ((C10_delete_preserves_time_fields [⟨300, rawOk⟩]
      { initState with alarm1Active := true, alarm1Hour := 7,
                       alarm1Minute := 30 }
      initState 300 0).2.1 (by decide)).2.1
  · exact ((C10_delete_preserves_time_fields []
      initState
      { initState with currentState := MenuState.MAIN_MENU,
                       menuPosition := 1, alarm1Hour := 7,
                       alarm1Minute := 30 }
      0 300).2.2 rfl rfl (by decide)).1
